import Mathlib

/-!
Verification of the perplexity_clone repository against its specification.

This file shallowly embeds the Python source into Lean 4. Python strings are
modelled as `List Char` (ASCII-faithful: `str.lower`, `str.strip`, `str.split`,
`in`, `startswith` are modelled character-by-character with Python's ASCII
semantics). Fallible external calls (LLM backend, web search, page fetch,
vector retrieval) are modelled as oracles returning `Except Err α`: an
`Except.error` value models a raised Python exception, and `Except.bind`
models exception propagation; a Python `try/except` block is modelled by
matching on the `Except` value.
-/

/-- Error payload of a raised Python exception. -/
abbrev Err := String

/-- Characters of a Lean string literal, used to transcribe Python string literals. -/
def pc (s : String) : List Char := s.data

/-- The ASCII apostrophe character, spliced into transcribed literals. -/
def apoc : Char := Char.ofNat 39

/-- Python `str.isspace` / whitespace set used by `str.strip` and `str.split`
(ASCII fragment: space, tab, newline, carriage return, vertical tab, form feed). -/
def pyIsSpace (c : Char) : Bool :=
  c = ' ' || c = '\t' || c = '\n' || c = '\r' || c = Char.ofNat 11 || c = Char.ofNat 12

/-- ASCII decimal digit test, modelling `\d` of Python's `re` on ASCII text. -/
def pyIsDigit (c : Char) : Bool := '0' ≤ c && c ≤ '9'

/-- ASCII uppercase test, modelling Python `str.isupper` on a single ASCII letter. -/
def pyIsUpper (c : Char) : Bool := 'A' ≤ c && c ≤ 'Z'

/-- Lower-case one character (ASCII fragment of Python `str.lower`). -/
def pyLowerChar (c : Char) : Char := if pyIsUpper c then Char.ofNat (c.toNat + 32) else c

/-- Python `str.lower` (ASCII fragment). -/
def pyLower (l : List Char) : List Char := l.map pyLowerChar

/-- Python `str.strip()`: drop leading and trailing whitespace. -/
def pyStrip (l : List Char) : List Char :=
  ((l.dropWhile pyIsSpace).reverse.dropWhile pyIsSpace).reverse

/-- Python substring containment `w in q` on strings. -/
def isSub (w q : List Char) : Bool := decide (w <:+: q)

/-- Python `w in q for w in words` folded with `any`. -/
def containsAny (q : List Char) (words : List (List Char)) : Bool :=
  words.any fun w => isSub w q

/-- Python `str.startswith`. -/
def pyStartsWith (p l : List Char) : Bool := p.isPrefixOf l

/-- Worker for `pySplit`: `cur` holds the reversed characters of the word being built. -/
def pySplitGo (cur : List Char) : List Char → List (List Char)
  | [] => if cur.isEmpty then [] else [cur.reverse]
  | c :: cs =>
    if pyIsSpace c then
      if cur.isEmpty then pySplitGo [] cs else cur.reverse :: pySplitGo [] cs
    else pySplitGo (c :: cur) cs

/-- Python `str.split()` with no argument: split on whitespace runs, dropping
empty fields. -/
def pySplit (l : List Char) : List (List Char) := pySplitGo [] l

/-- Join a list of strings with a separator, modelling Python `sep.join(parts)`. -/
def joinSep (sep : List Char) : List (List Char) → List Char
  | [] => []
  | [x] => x
  | x :: xs => x ++ sep ++ joinSep sep xs

/-- Decimal digits of a natural number, modelling Python `str(n)` / f-string
interpolation of an int. -/
def natStr (n : Nat) : List Char := (Nat.repr n).data

namespace RouterAgent

/-- `RouterAgent.contains` (src/rag/router.py): lower the query, then test
whether any of the words occurs as a substring. -/
def contains (q : List Char) (words : List (List Char)) : Bool :=
  containsAny (pyLower q) words

/-- The fixed greeting strings of `RouterAgent.is_greeting`. -/
def greetings : List (List Char) :=
  [pc "hi", pc "hello", pc "hey", pc "yo", pc "sup", pc "hi there", pc "hello there"]

/-- `RouterAgent.is_greeting`: the lowered, stripped query is one of the fixed
greeting strings. -/
def is_greeting (q : List Char) : Bool := decide (pyStrip (pyLower q) ∈ greetings)

/-- The image keywords of `RouterAgent.is_image_query`. -/
def image_words : List (List Char) :=
  [pc "image", pc "photo", pc "pic", pc "picture", pc "logo", pc "wallpaper", pc "screenshot"]

/-- `RouterAgent.is_image_query`. -/
def is_image_query (q : List Char) : Bool := contains q image_words

/-- The real-time keywords of `RouterAgent.is_realtime`. -/
def realtime_words : List (List Char) :=
  [pc "today", pc "now", pc "latest", pc "current",
   pc "price", pc "stock", pc "weather", pc "news",
   pc "update", pc "live", pc "score", pc "match", pc "schedule"]

/-- `RouterAgent.is_realtime`. -/
def is_realtime (q : List Char) : Bool := contains q realtime_words

/-- The world-fact patterns of `RouterAgent.is_world_fact`. -/
def world_fact_words : List (List Char) :=
  [pc "prime minister", pc "president", pc "capital of",
   pc "ceo", pc "founder", pc "population", pc "richest",
   pc "oldest", pc "largest", pc "smallest", pc "currency",
   pc "country", pc "state", pc "city", pc "minister",
   pc "government", pc "party"]

/-- `RouterAgent.is_world_fact`. -/
def is_world_fact (q : List Char) : Bool := contains q world_fact_words

/-- The AI-model keywords of `RouterAgent.is_ai_model`. -/
def ai_model_words : List (List Char) :=
  [pc "gpt", pc "gemini", pc "llama", pc "claude", pc "grok", pc "mistral", pc "phi"]

/-- `RouterAgent.is_ai_model`. -/
def is_ai_model (q : List Char) : Bool := contains q ai_model_words

/-- `RouterAgent.is_definition`: the lowered query starts with a
definition-style prefix. -/
def is_definition (q : List Char) : Bool :=
  pyStartsWith (pc "what is") (pyLower q) || pyStartsWith (pc "define") (pyLower q) ||
    pyStartsWith (pc "explain") (pyLower q)

/-- The deep-research keywords of `RouterAgent.is_deep`. -/
def deep_words : List (List Char) :=
  [pc "compare", pc "analysis", pc "impact", pc "advantages", pc "disadvantages",
   pc "evaluate", pc "future", pc "strategy", pc "risk"]

/-- `RouterAgent.is_deep`. -/
def is_deep (q : List Char) : Bool := contains q deep_words

/-- `RouterAgent.is_entity`: at least one word of the query starts with an
uppercase letter (`w[:1].isupper()`; the empty slice is not upper). -/
def is_entity (q : List Char) : Bool :=
  1 ≤ ((pySplit q).filter fun w =>
    match w with
    | [] => false
    | c :: _ => pyIsUpper c).length

/-- The four mode tokens accepted from the fallback classifier in
`RouterAgent.llm_decide`. -/
def allowed_modes : List (List Char) :=
  [pc "web", pc "rag", pc "llm", pc "deep_research"]

/-- `RouterAgent.llm_decide` (src/rag/router.py lines 69-93). The LLM backend
call `self.llm.invoke(...)` is the oracle value `resp`; its `.content` is the
`Except.ok` payload, and a raised network/backend error is `Except.error`
(there is no `try/except` in the Python code, so an error propagates). On a
returned string, strip and lower it; return it when it is one of the four
allowed tokens, otherwise return "llm". -/
def llm_decide (resp : Except Err (List Char)) : Except Err (List Char) :=
  match resp with
  | .error e => .error e
  | .ok content =>
    let r := pyLower (pyStrip content)
    if r ∈ allowed_modes then .ok r else .ok (pc "llm")

/-- `RouterAgent.route` (src/rag/router.py lines 96-113). `resp` is the
fallback classifier backend's outcome for this query, consumed only when no
fast rule fires. -/
def route (q0 : List Char) (resp : Except Err (List Char)) : Except Err (List Char) :=
  let q := pyStrip q0
  if is_greeting q then .ok (pc "llm")
  else if is_image_query q then .ok (pc "image")
  else if is_realtime q then .ok (pc "web")
  else if is_world_fact q then .ok (pc "web")
  else if is_ai_model q then .ok (pc "web")
  else if (pySplit q).length ≤ 2 && is_entity q then .ok (pc "web")
  else if is_deep q then .ok (pc "deep_research")
  else if is_definition q then .ok (pc "rag")
  else llm_decide resp

end RouterAgent

namespace CitationTool

/-- State machine modelling `re.finditer(r"\[(\d+)\]", answer)`: `none` means
no candidate match is open; `some ds` means a `[` has been consumed and `ds`
holds the digits read so far (reversed). On a failed candidate the scanner
resumes at the failing character, which matches the regex engine's restart at
the next position (the skipped characters are digits and cannot start a
match). -/
def scanGo : Option (List Char) → List Char → List Nat
  | _, [] => []
  | none, c :: cs => if c = '[' then scanGo (some []) cs else scanGo none cs
  | some ds, c :: cs =>
    if pyIsDigit c then scanGo (some (c :: ds)) cs
    else if c = ']' && !ds.isEmpty then
      (ds.reverse.foldl (fun n d => 10 * n + (d.toNat - 48)) 0) :: scanGo none cs
    else if c = '[' then scanGo (some []) cs
    else scanGo none cs

/-- The citation indices occurring in the answer, in textual order with
multiplicity (the raw `finditer` stream of `int(m.group(1))` values). -/
def scan (answer : List Char) : List Nat := scanGo none answer

/-- `CitationTool.extract_indices` (src/tools/citation_tool.py):
`sorted({int(m.group(1)) for m in finditer})` — deduplicate, then sort
ascending. -/
def extract_indices (answer : List Char) : List Nat :=
  List.insertionSort (· ≤ ·) (scan answer).dedup

/-- `CitationTool.attach_sources` (src/tools/citation_tool.py lines 13-19):
keep `sources[idx-1]` for each extracted index `idx` with
`1 <= idx <= len(sources)`, in ascending index order. -/
def attach_sources {α : Type} (answer : List Char) (sources : List α) : List α :=
  (extract_indices answer).filterMap fun idx =>
    if 1 ≤ idx then sources[idx - 1]? else none

end CitationTool

/-! ## Common data model for the API layer and pipelines -/

/-- A chat message `{"role": ..., "content": ...}`. -/
structure Msg where
  role : List Char
  content : List Char
deriving DecidableEq

/-- A Tavily search result dict. Fields are `Option` because Python
`dict.get` distinguishes a missing key from an empty string. -/
structure SearchResult where
  url : Option (List Char) := none
  title : Option (List Char) := none
  content : Option (List Char) := none
  snippet : Option (List Char) := none
deriving DecidableEq

/-- A link object `{"title", "url", "snippet"}` of the response envelope. -/
structure Link where
  title : List Char
  url : List Char
  snippet : List Char
deriving DecidableEq

/-- A source object `{"title", "url"}` of the response envelope. -/
structure SourceRef where
  title : List Char
  url : List Char
deriving DecidableEq

/-- An image search result (payload opaque to the claims). -/
structure ImageRef where
  url : List Char
deriving DecidableEq

/-- A retrieved document chunk (`langchain` `Document`): page content plus the
metadata keys the code reads. -/
structure Chunk where
  page_content : List Char := []
  meta_source : Option (List Char) := none
  meta_file_path : Option (List Char) := none
deriving DecidableEq

/-- Modelled from the spec: the system prompt constant `PPLX_SYSTEM_PROMPT`
imported from `config/system_prompt.py`, whose source file is not present
under src/; its text is an opaque constant, irrelevant to every claim. -/
def PPLX_SYSTEM_PROMPT : List Char := pc "PPLX_SYSTEM_PROMPT"

/-- Oracle bundle for every external effect of the program: LLM backend,
web search, page fetching, image search, vector retrieval, reranking, the
per-workspace document index, and the rule-based name extractor. A call that
can raise in Python returns `Except Err`. -/
structure Env where
  /-- `llm.invoke([{system prompt}, {user prompt}]).content` for pipeline nodes. -/
  llm : List Char → Except Err (List Char)
  /-- `llm.invoke(messages).content` for the chat endpoint's full message lists. -/
  chat_llm : List Msg → Except Err (List Char)
  /-- `FollowUpGenerator.generate(answer, question)` (LLM-backed, can raise). -/
  followup_gen : List Char → List Char → Except Err (List (List Char))
  /-- `SummarizerTool.summarize(text, max_words)` (LLM-backed, can raise). -/
  summarize : List Char → Nat → Except Err (List Char)
  /-- `SearchTool.search(query, num_results)`. -/
  search : List Char → Nat → Except Err (List SearchResult)
  /-- `BrowseTool.fetch_clean(url)`; `Except.ok []` models `None` or `""`. -/
  fetch_clean : List Char → Except Err (List Char)
  /-- `TavilyImageSearch.search(query, count)`. -/
  image_search : List Char → Nat → Except Err (List ImageRef)
  /-- The router's fallback classifier backend reply for a query. -/
  classifier : List Char → Except Err (List Char)
  /-- `FileWorkspace.retrieve(query, k)` of workspace `ws` (vector similarity). -/
  ws_retrieve : List Char → List Char → Nat → Except Err (List Chunk)
  /-- `file_manager.get_workspace(ws).initialized`. -/
  ws_initialized : List Char → Bool
  /-- `file_manager.get_workspace(ws).files`. -/
  ws_files : List Char → List (List Char)
  /-- `vector.retrieve(query, k)` on the base demo vector store. -/
  vs_retrieve : List Char → Nat → Except Err (List Chunk)
  /-- `Reranker.rerank(query, chunks, top_k)`. -/
  rerank : List Char → List Chunk → Nat → Except Err (List Chunk)
  /-- `NameTool.extract_name(text)` (rule-based, total). -/
  extract_name : List Char → Option (List Char)

/-- `tavily_images_safe` (src/app/api.py lines 152-158): catch any exception
from the image search and degrade to `[]`. -/
def tavily_images_safe (env : Env) (query : List Char) : List ImageRef :=
  match env.image_search query 6 with
  | .ok imgs => imgs
  | .error _ => []

/-- `convert_links` (src/app/api.py lines 161-175). -/
def convert_links (results : List SearchResult) : List Link :=
  results.filterMap fun r =>
    if r.url.getD [] = [] then none
    else some ⟨r.title.getD (pc "Result"), r.url.getD [], (r.content.getD []).take 200⟩

/-! ## Summarize pipeline (SummarizeGraph: input → summarize) -/

/-- `SummarizeState` (src/rag/rag_state.py), with the dict-get defaults the
nodes use for absent keys. -/
structure SumState where
  query : List Char
  is_url : Bool := false
  content : List Char := []
  links : List Link := []
  sources : List SourceRef := []
  answer : List Char := []
  followups : List (List Char) := []
deriving DecidableEq

/-- The search-and-fetch loop of `SummarizeInputNode.process_input`
(src/rag/agents.py lines 757-771): accumulate `content_parts` and `links`;
an exception from a fetch propagates to the node's `try`. -/
def sumFetchLoop (env : Env) : List SearchResult → Except Err (List (List Char) × List Link)
  | [] => .ok ([], [])
  | r :: rs =>
    let url := r.url.getD []
    if url = [] then sumFetchLoop env rs
    else do
      let text ← env.fetch_clean url
      let rest ← sumFetchLoop env rs
      if text = [] then .ok rest
      else .ok ((text.take 1500) :: rest.1, ⟨r.title.getD [], url, text.take 150⟩ :: rest.2)

/-- `SummarizeInputNode.process_input` (src/rag/agents.py lines 738-779).
Both branches wrap their work in `try/except`, so the node itself never
raises; on a search-branch exception the query string is used as content. -/
def summarize_input (env : Env) (st : SumState) : SumState :=
  if pyStartsWith (pc "http") st.query then
    match env.fetch_clean st.query with
    | .ok content =>
      { st with
        is_url := true
        content := content
        links := [⟨pc "Source", st.query, content.take 200⟩]
        sources := [⟨pc "Source URL", st.query⟩] }
    | .error _ => { st with is_url := true, content := [] }
  else
    match (do sumFetchLoop env (← env.search st.query 3) : Except Err _) with
    | .ok (parts, links) =>
      { st with
        is_url := false
        content := joinSep (pc "\n\n") parts
        links := links
        sources := links.map fun l => ⟨l.title, l.url⟩ }
    | .error _ =>
      { st with is_url := false, content := st.query, links := [], sources := [] }

/-- The fixed no-content answer of `SummarizeProcessNode.summarize`. -/
def noContentMsg : List Char := pc "Could not find content to summarize."

/-- `SummarizeProcessNode.summarize` (src/rag/agents.py lines 789-802). -/
def summarize_process (env : Env) (st : SumState) : Except Err SumState := do
  let answer ← if st.content ≠ [] then env.summarize st.content 300 else pure noContentMsg
  let follow ← env.followup_gen answer st.query
  .ok { st with answer := answer, followups := follow }

/-- The composed Summarize pipeline `SummarizeGraph.run` (src/rag/graph_deep.py):
input node, then summarize node. -/
def summarize_run (env : Env) (query : List Char) : Except Err SumState :=
  summarize_process env (summarize_input env { query := query })

/-! ## Document-Only pipeline (RAGOnlyGraph: retrieve → build_context → answer) -/

/-- A file chunk as stored into `RAGOnlyState.file_chunks`
(`{"content": ..., "source": ...}`). -/
structure RagChunk where
  content : List Char
  source : List Char
deriving DecidableEq

/-- `RAGOnlyState` (src/rag/rag_state.py) with dict-get defaults. -/
structure RAGOnlyState where
  query : List Char
  workspace_id : List Char
  file_chunks : List RagChunk := []
  context : List Char := []
  answer : List Char := []
  sources : List SourceRef := []
  followups : List (List Char) := []
deriving DecidableEq

/-- `RAGRetrieveNode.retrieve` (src/rag/agents.py lines 288-311): empty-chunk
state when the workspace is uninitialized or has no files; retrieval errors
are caught and degrade to empty chunks, so the node is total. -/
def rag_retrieve (env : Env) (st : RAGOnlyState) : RAGOnlyState :=
  if !env.ws_initialized st.workspace_id || env.ws_files st.workspace_id = [] then
    { st with file_chunks := [] }
  else
    match env.ws_retrieve st.workspace_id st.query 8 with
    | .ok chunks =>
      { st with file_chunks :=
          chunks.map fun c => ⟨c.page_content, c.meta_source.getD (pc "Document")⟩ }
    | .error _ => { st with file_chunks := [] }

/-- `RAGContextNode.build_context` (src/rag/agents.py lines 317-329). -/
def rag_context (st : RAGOnlyState) : RAGOnlyState :=
  if st.file_chunks = [] then { st with context := [] }
  else
    { st with
      context :=
        joinSep (pc "\n\n---\n\n")
          ((st.file_chunks.enum).map fun ic =>
            pc "[DOC " ++ natStr (ic.1 + 1) ++ pc "] " ++ ic.2.source ++ pc ":\n" ++ ic.2.content) }

/-- The fixed no-documents answer of `RAGAnswerNode.answer`. -/
def noDocsMsg : List Char := pc "📚 No documents found. Please upload files first using the 📎 button."

/-- The document-analysis prompt of `RAGAnswerNode.answer` (src/rag/agents.py
lines 350-364). -/
def ragAnswerPrompt (context query : List Char) : List Char :=
  pc "You are a document analysis assistant.\nAnswer ONLY based on the provided documents. Do NOT use external knowledge.\n\nDOCUMENTS:\n"
    ++ context ++ pc "\n\nQUESTION: " ++ query
    ++ pc "\n\nInstructions:\n- Answer based ONLY on document content\n- Say \"According to your documents...\" when citing\n- Quote relevant parts when helpful\n- If info is not in documents, say so\n\nANSWER:"

/-- The first-occurrence source list built by `RAGAnswerNode.answer`
(src/rag/agents.py lines 376-383), keeping one entry per distinct chunk source. -/
def ragSourcesGo (seen : List (List Char)) : List RagChunk → List SourceRef
  | [] => []
  | c :: cs =>
    if c.source ∈ seen then ragSourcesGo seen cs
    else ⟨pc "📄 " ++ c.source, []⟩ :: ragSourcesGo (c.source :: seen) cs

/-- `RAGAnswerNode.answer` (src/rag/agents.py lines 339-386): with empty
context, return the fixed no-documents answer with empty sources and
followups without calling the LLM; otherwise generate from the documents. -/
def rag_answer (env : Env) (st : RAGOnlyState) : Except Err RAGOnlyState :=
  if st.context = [] then
    .ok { st with answer := noDocsMsg, sources := [], followups := [] }
  else do
    let answer ← env.llm (ragAnswerPrompt st.context st.query)
    let follow ← env.followup_gen answer st.query
    .ok { st with answer := answer, followups := follow,
                  sources := ragSourcesGo [] st.file_chunks }

/-- The composed Document-Only pipeline `RAGOnlyGraph.run`
(src/rag/graph_deep.py): retrieve, build_context, answer. -/
def rag_only_run (env : Env) (query workspace_id : List Char) : Except Err RAGOnlyState :=
  rag_answer env (rag_context (rag_retrieve env { query := query, workspace_id := workspace_id }))

/-! ## Agentic pipeline (AgenticRAGGraph: planner → file → web → knowledge → image → synthesizer) -/

/-- `AgenticState` (src/rag/rag_state.py) with dict-get defaults. -/
structure AgenticState where
  query : List Char
  workspace_id : List Char
  use_file : Bool := false
  use_web : Bool := false
  use_images : Bool := false
  use_knowledge : Bool := false
  file_context : List Char := []
  file_sources : List SourceRef := []
  web_context : List Char := []
  web_sources : List SourceRef := []
  links : List Link := []
  knowledge_context : List Char := []
  images : List ImageRef := []
  combined_context : List Char := []
  answer : List Char := []
  sources : List SourceRef := []
  followups : List (List Char) := []
deriving DecidableEq

/-- The `use_file` gate of `AgenticPlannerNode.plan` (src/rag/agents.py
lines 400-403), computed on the lowered query. -/
def agentic_use_file (ql : List Char) : Bool :=
  containsAny ql
    [pc "document", pc "file", pc "pdf", pc "uploaded", pc "summarize my",
     pc "according to", pc "in the file", pc "extract", pc "my notes"]

/-- The `use_web` gate of `AgenticPlannerNode.plan` (lines 405-409): keyword
hit, or a short query of at most four words. -/
def agentic_use_web (ql : List Char) : Bool :=
  containsAny ql
    [pc "today", pc "current", pc "latest", pc "news", pc "weather", pc "stock",
     pc "who is", pc "what is", pc "where", pc "when", pc "price", pc "live",
     pc "recent", pc "update"]
  || (pySplit ql).length ≤ 4

/-- The `use_images` gate of `AgenticPlannerNode.plan` (lines 411-414). -/
def agentic_use_images (ql : List Char) : Bool :=
  containsAny ql
    [pc "image", pc "photo", pc "picture", pc "logo", pc "show me", pc "look like",
     pc "flag", pc "screenshot"]

/-- The `use_knowledge` gate of `AgenticPlannerNode.plan` (lines 416-419). -/
def agentic_use_knowledge (ql : List Char) : Bool :=
  containsAny ql
    [pc "explain", pc "define", pc "concept", pc "theory", pc "how does",
     pc "what is", pc "meaning of"]

/-- `AgenticPlannerNode.plan` (src/rag/agents.py lines 396-422): compute the
four gates from the lowered query. -/
def agentic_planner (st : AgenticState) : AgenticState :=
  let ql := pyLower st.query
  { st with
    use_file := agentic_use_file ql
    use_web := agentic_use_web ql
    use_images := agentic_use_images ql
    use_knowledge := agentic_use_knowledge ql }

/-- `AgenticFileNode.retrieve` (src/rag/agents.py lines 431-463): skip unless
`use_file`; retrieval errors and empty results degrade to empty context. -/
def agentic_file (env : Env) (st : AgenticState) : AgenticState :=
  if !st.use_file then { st with file_context := [], file_sources := [] }
  else if !env.ws_initialized st.workspace_id then
    { st with file_context := [], file_sources := [] }
  else
    match env.ws_retrieve st.workspace_id st.query 6 with
    | .ok chunks =>
      if chunks ≠ [] then
        { st with
          file_context := joinSep (pc "\n\n") (chunks.map (·.page_content))
          file_sources := chunks.map fun c =>
            ⟨pc "📄 " ++ c.meta_source.getD (pc "Document"), []⟩ }
      else { st with file_context := [], file_sources := [] }
    | .error _ => { st with file_context := [], file_sources := [] }

/-- The fetch loop of `AgenticWebNode.search` (src/rag/agents.py lines
488-498); an exception from any fetch propagates to the node's `try`. -/
def agenticWebLoop (env : Env) :
    List SearchResult → Except Err (List (List Char) × List SourceRef × List Link)
  | [] => .ok ([], [], [])
  | r :: rs =>
    let url := r.url.getD []
    if url = [] then agenticWebLoop env rs
    else do
      let content ← env.fetch_clean url
      let rest ← agenticWebLoop env rs
      if content ≠ [] then
        .ok ((pc "[" ++ r.title.getD [] ++ pc "]: " ++ content.take 1500) :: rest.1,
             (⟨r.title.getD [], url⟩ : SourceRef) :: rest.2.1,
             (⟨r.title.getD [], url, content.take 150⟩ : Link) :: rest.2.2)
      else .ok rest

/-- `AgenticWebNode.search` (src/rag/agents.py lines 473-511): skip unless
`use_web`; any exception inside the `try` degrades every web field to empty. -/
def agentic_web (env : Env) (st : AgenticState) : AgenticState :=
  if !st.use_web then { st with web_context := [], web_sources := [], links := [] }
  else
    match (do agenticWebLoop env (← env.search st.query 4) : Except Err _) with
    | .ok (parts, sources, links) =>
      { st with
        web_context := joinSep (pc "\n\n") parts
        web_sources := sources
        links := links }
    | .error _ => { st with web_context := [], web_sources := [], links := [] }

/-- `AgenticKnowledgeNode.retrieve` (src/rag/agents.py lines 521-542): skip
unless `use_knowledge`; errors and empty results degrade to empty context. -/
def agentic_knowledge (env : Env) (st : AgenticState) : AgenticState :=
  if !st.use_knowledge then { st with knowledge_context := [] }
  else
    match (do env.rerank st.query (← env.vs_retrieve st.query 4) 3 : Except Err _) with
    | .ok chunks =>
      if chunks ≠ [] then
        { st with knowledge_context := joinSep (pc "\n\n") (chunks.map (·.page_content)) }
      else { st with knowledge_context := [] }
    | .error _ => { st with knowledge_context := [] }

/-- `AgenticImageNode.search` (src/rag/agents.py lines 551-566): skip unless
`use_images`; errors degrade to no images. -/
def agentic_image (env : Env) (st : AgenticState) : AgenticState :=
  if !st.use_images then { st with images := [] }
  else
    match env.image_search st.query 6 with
    | .ok imgs => { st with images := imgs }
    | .error _ => { st with images := [] }

/-- The general-knowledge fallback context of `AgenticSynthesizerNode.synthesize`. -/
def noSpecificContextMsg : List Char := pc "No specific context found. Using general knowledge."

/-- The synthesis prompt of `AgenticSynthesizerNode.synthesize`
(src/rag/agents.py lines 594-608). -/
def agenticSynthPrompt (combined query : List Char) : List Char :=
  pc "You are an AGENTIC AI assistant that synthesizes information from multiple sources.\n\nAVAILABLE CONTEXT:\n"
    ++ combined ++ pc "\n\nUSER QUESTION: " ++ query
    ++ pc "\n\nINSTRUCTIONS:\n1. Prioritize user"
    ++ [apoc]
    ++ pc "s documents (📄) if relevant\n2. Add real-time info from web (🌐) when available\n3. Use knowledge base (📚) for background\n4. Cite sources appropriately\n5. Be comprehensive but concise\n\nSYNTHESIZED ANSWER:"

/-- `AgenticSynthesizerNode.synthesize` (src/rag/agents.py lines 576-624). -/
def agentic_synthesize (env : Env) (st : AgenticState) : Except Err AgenticState := do
  let contexts :=
    (if st.file_context ≠ [] then
      [pc "📄 FROM YOUR DOCUMENTS:\n" ++ st.file_context.take 2500] else [])
    ++ (if st.web_context ≠ [] then
      [pc "🌐 FROM THE WEB:\n" ++ st.web_context.take 2500] else [])
    ++ (if st.knowledge_context ≠ [] then
      [pc "📚 KNOWLEDGE BASE:\n" ++ st.knowledge_context.take 1500] else [])
  let contexts := if contexts = [] then [noSpecificContextMsg] else contexts
  let combined := joinSep (pc "\n\n---\n\n") contexts
  let answer ← env.llm (agenticSynthPrompt combined st.query)
  let follow ← env.followup_gen answer st.query
  .ok { st with
        combined_context := combined
        answer := answer
        followups := follow
        sources := st.file_sources ++ st.web_sources }

/-- The composed Agentic pipeline `AgenticRAGGraph.run` (src/rag/graph_deep.py):
planner, file, web, knowledge, image, synthesizer. -/
def agentic_run (env : Env) (query workspace_id : List Char) : Except Err AgenticState :=
  agentic_synthesize env
    (agentic_image env
      (agentic_knowledge env
        (agentic_web env
          (agentic_file env
            (agentic_planner { query := query, workspace_id := workspace_id })))))

/-! ## Response envelope and mode endpoints (src/app/api.py) -/

/-- The `ChatResponse` pydantic model (src/app/api.py lines 116-123): the
complete response envelope, with its field defaults. -/
structure ChatResponse where
  answer : List Char
  sources : List SourceRef := []
  links : List Link := []
  images : List ImageRef := []
  followups : List (List Char) := []
  default_tab : List Char := pc "answer"
  workspace_id : List Char
deriving DecidableEq

/-- The dict produced by `DeepResearchGraph.run` as read by the
`deep_research` endpoint via `state.get` (keys may be absent). -/
structure DeepResult where
  final_answer : Option (List Char) := none
  sources : Option (List SourceRef) := none
deriving DecidableEq

/-- The dict produced by `WebSearchGraph.run` as read by the `web_search_mode`
endpoint via `state.get`. -/
structure WebResult where
  answer : Option (List Char) := none
  sources : Option (List SourceRef) := none
  links : Option (List Link) := none
  followups : Option (List (List Char)) := none
deriving DecidableEq

/-- The generic failure answer of the `deep_research` endpoint. -/
def deepFailMsg : List Char := pc "Something went wrong in deep research mode."

/-- The `deep_research` endpoint (src/app/api.py lines 467-497). `pres` is the
outcome of `deep_graph.run(q)`: the `try/except` catches a raised pipeline
exception and substitutes the generic failure answer with empty sources. The
follow-up generation afterwards is outside the `try` and can still raise. -/
def deep_research (env : Env) (pres : Except Err DeepResult) (q ws : List Char) :
    Except Err ChatResponse :=
  let answer := match pres with
    | .ok st => st.final_answer.getD (pc "No answer generated.")
    | .error _ => deepFailMsg
  let sources := match pres with
    | .ok st => st.sources.getD []
    | .error _ => []
  do
    let images := tavily_images_safe env q
    let follow ← env.followup_gen answer q
    .ok { answer := answer
          sources := sources
          links := []
          images := images
          followups := follow
          default_tab := pc "answer"
          workspace_id := ws }

/-- The `web_search_mode` endpoint (src/app/api.py lines 894-926). `pres` is
the outcome of `web_graph.run(q)`; there is no `try/except` around it, so a
raised pipeline exception propagates to the caller (`let st ← pres`). -/
def web_search_mode (env : Env) (pres : Except Err WebResult) (q ws : List Char) :
    Except Err ChatResponse := do
  let st ← pres
  .ok { answer := st.answer.getD (pc "No answer generated.")
        sources := st.sources.getD []
        links := st.links.getD []
        images := tavily_images_safe env q
        followups := st.followups.getD []
        default_tab := pc "answer"
        workspace_id := ws }

/-! ## File manager (src/files/file_manager.py, C5) -/

/-- An uploaded file path as seen by `FileWorkspace.add_files`: `str(p)` and
`p.name`. -/
structure UploadPath where
  path : List Char
  name : List Char
deriving DecidableEq

/-- The loader and splitter used by `add_files` (`DocumentProcessor` and the
per-suffix langchain loaders), abstracted as oracles: `load p` is the list
of documents loaded from file `p` (an `Except.error` models a raised loader
exception, caught by the per-file `try`), and `split` is
`DocumentProcessor.split`. -/
structure FMEnv where
  load : UploadPath → Except Err (List Chunk)
  split : List Chunk → List Chunk

/-- The vector-store state of one `FileWorkspace`. -/
structure WorkspaceSt where
  initialized : Bool := false
  files : List (List Char) := []
  store : List Chunk := []
deriving DecidableEq

/-- The per-file loading loop of `FileWorkspace.add_files` (src/files/
file_manager.py lines 30-50): collect loaded docs in order and append each
successfully loaded file's name; a loader exception skips the file. -/
def addFilesLoop (env : FMEnv) : List UploadPath → (List Chunk × List (List Char))
  | [] => ([], [])
  | p :: ps =>
    match env.load p with
    | .ok ds =>
      let rest := addFilesLoop env ps
      (ds ++ rest.1, p.name :: rest.2)
    | .error _ => addFilesLoop env ps

/-- `FileWorkspace.add_files` (src/files/file_manager.py lines 26-68). The
metadata loop `for doc in docs: doc.metadata["file_path"] = str(p);
doc.metadata["source"] = p.name` runs AFTER the file loop, so `p` is the loop
variable left over from the last iteration: every document of the batch is
tagged with the LAST uploaded path's name. The split chunks are then indexed
(creating the store when uninitialized, appending otherwise). -/
def add_files (env : FMEnv) (ws : WorkspaceSt) (uploaded_paths : List UploadPath) :
    WorkspaceSt :=
  let loaded := addFilesLoop env uploaded_paths
  let docs := loaded.1
  let ws' := { ws with files := ws.files ++ loaded.2 }
  if docs = [] then ws'
  else
    match uploaded_paths.getLast? with
    | none => ws'
    | some p =>
      let docs := docs.map fun d =>
        { d with meta_file_path := some p.path, meta_source := some p.name }
      let chunks := env.split docs
      { ws' with
        initialized := true
        store := if ws.initialized then ws.store ++ chunks else chunks }

/-! ## The /api/chat endpoint (src/app/api.py lines 181-437, C9) -/

/-- The observable state of the `MemoryTool` for one workspace, instrumented
with the list of history snapshots returned by `get_long_chat` (each entry
records one read of the chat history, in order). -/
structure ChatSt where
  history : List Msg := []
  reads : List (List Msg) := []
  profile_name : Option (List Char) := none
deriving DecidableEq

/-- `MemoryTool.add(ws, role, content)` (src/tools/memory_tool.py lines 11-14). -/
def memory_add (st : ChatSt) (role content : List Char) : ChatSt :=
  { st with history := st.history ++ [⟨role, content⟩] }

/-- `MemoryTool.get_long_chat(ws)` (src/tools/memory_tool.py lines 22-24),
returning the full history and recording the read. -/
def get_long_chat (st : ChatSt) : List Msg × ChatSt :=
  (st.history, { st with reads := st.reads ++ [st.history] })

/-- `build_context` (src/app/api.py lines 129-135): system prompt, then the
whole workspace history read via `get_long_chat`, then the new user message. -/
def build_context (st : ChatSt) (new_msg : List Char) : List Msg × ChatSt :=
  let (hist, st') := get_long_chat st
  (⟨pc "system", PPLX_SYSTEM_PROMPT⟩ :: (hist ++ [⟨pc "user", new_msg⟩]), st')

/-- `guess_default_tab` (src/app/api.py lines 138-149). -/
def guess_default_tab (query mode : List Char) : List Char :=
  if containsAny (pyLower query)
      [pc "image", pc "images", pc "photo", pc "photos", pc "picture", pc "pictures",
       pc "wallpaper", pc "logo", pc "flag", pc "screenshot", pc "pic"] then pc "images"
  else if mode = pc "web" then pc "links"
  else pc "answer"

/-- A fetched web page `{"title", "url", "content"}`. -/
structure Page where
  title : List Char
  url : List Char
  content : List Char
deriving DecidableEq

/-- The result of one chat-mode branch: answer, links, sources, followups,
and the memory state after the branch's history reads. -/
structure BranchOut where
  answer : List Char
  links : List Link := []
  sources : List SourceRef := []
  follow : List (List Char) := []
  st : ChatSt
deriving DecidableEq

/-- The llm-mode branch of `chat` (src/app/api.py lines 213-223): full-history
context, LLM answer, follow-ups, and an optional small link set whose search
errors are swallowed. -/
def chat_llm_branch (env : Env) (q : List Char) (st : ChatSt) : Except Err BranchOut := do
  let r := build_context st q
  let answer ← env.chat_llm r.1
  let follow ← env.followup_gen answer q
  let links := match env.search q 3 with
    | .ok res => convert_links res
    | .error _ => []
  .ok { answer := answer, links := links, follow := follow, st := r.2 }

/-- The image-mode branch of `chat` (src/app/api.py lines 226-239): brief
context from a search whose errors degrade to a fallback answer; the history
is never read. -/
def chat_image_branch (env : Env) (q : List Char) (st : ChatSt) : Except Err BranchOut :=
  match env.search q 3 with
  | .ok res =>
    let ctx := match res with
      | [] => []
      | r :: _ => r.snippet.getD []
    let answer0 := pc "Here are images related to " ++ [apoc] ++ q ++ [apoc] ++ pc "."
    let answer := if ctx ≠ [] then answer0 ++ pc "\n\n" ++ ctx else answer0
    .ok { answer := answer, links := convert_links res, st := st }
  | .error _ => .ok { answer := pc "Showing images for: " ++ q, st := st }

/-- The `use_file_rag` gate of the chat rag branch (src/app/api.py lines 246-252). -/
def chat_use_file_rag (q : List Char) : Bool :=
  containsAny (pyLower q)
    [pc "summarize", pc "according to", pc "in this pdf", pc "in the document",
     pc "based on the file", pc "read my", pc "extract from", pc "uploaded",
     pc "this file", pc "the file", pc "my file", pc "from file"]
  || 2 < (pySplit q).length

/-- The `use_web` gate of the chat rag branch (src/app/api.py lines 254-260). -/
def chat_use_web (q : List Char) : Bool :=
  containsAny (pyLower q)
    [pc "today", pc "latest", pc "current", pc "news", pc "stock", pc "price",
     pc "real-time", pc "weather", pc "who is", pc "what is", pc "where is",
     pc "when", pc "how much", pc "compare"]

/-- The `use_images` gate of the chat rag branch (src/app/api.py lines 262-267). -/
def chat_use_images (q : List Char) : Bool :=
  containsAny (pyLower q)
    [pc "image", pc "images", pc "logo", pc "flag", pc "photos", pc "look like",
     pc "picture", pc "show me", pc "wallpaper", pc "screenshot"]

/-- The web-agent fetch loop of the chat rag branch (src/app/api.py lines
285-295): accumulate pages; a raised fetch error is caught by the enclosing
`try`, keeping the pages gathered so far and dropping the rest. -/
def chatRagWebLoop (env : Env) : List SearchResult → List Page
  | [] => []
  | r :: rs =>
    let url := r.url.getD []
    if url = [] then chatRagWebLoop env rs
    else
      match env.fetch_clean url with
      | .error _ => []
      | .ok text =>
        if text ≠ [] then
          ⟨r.title.getD [], url, text.take 1500⟩ :: chatRagWebLoop env rs
        else chatRagWebLoop env rs

/-- The synthesis prompt of the chat rag branch (src/app/api.py lines 320-337). -/
def chatRagSynthPrompt (full_context q : List Char) : List Char :=
  pc "You are an AGENTIC RAG synthesis model like Perplexity AI.\nCombine information from FILE CONTEXT, REFERENCE CONTEXT and WEB CONTEXT.\n\nRULES:\n1. PRIORITIZE info from FILE CONTEXT (user"
    ++ [apoc]
    ++ pc "s uploaded documents) when available.\n2. Use WEB CONTEXT to add current/live information.\n3. Use REFERENCE CONTEXT for background knowledge.\n4. Cite sources using [1], [2], etc. when referencing specific info.\n5. If answering from a file, say \"According to your uploaded document...\"\n6. Do NOT hallucinate - only use info from the provided contexts.\n7. Be concise but comprehensive.\n\nAVAILABLE CONTEXT:\n"
    ++ full_context ++ pc "\n\nUSER QUESTION: " ++ q ++ pc "\n\nFINAL ANSWER:"

/-- The rag-mode (agentic) branch of `chat` (src/app/api.py lines 242-362).
File retrieval, base retrieval and reranking are not guarded and propagate
errors; the web agent runs only when the `use_web` gate holds, and its `try`
swallows its errors; the planner's image call (`tavily_images_safe`, total,
and its result is discarded by the code) is omitted as observationally
inert. -/
def chat_rag_branch (env : Env) (q ws : List Char) (st : ChatSt) : Except Err BranchOut := do
  let file_chunks ←
    if chat_use_file_rag q && env.ws_initialized ws then env.ws_retrieve ws q 6
    else pure []
  let base0 ← env.vs_retrieve q 4
  let base_chunks ← env.rerank q base0 3
  let wr :=
    if chat_use_web q then
      match env.search q 4 with
      | .ok rs => (rs, chatRagWebLoop env rs)
      | .error _ => ([], [])
    else ([], [])
  let web_results := wr.1
  let web_pages := wr.2
  let contexts :=
    (if file_chunks ≠ [] then
      [pc "📄 FILE CONTEXT (from uploaded documents):\n"
        ++ joinSep (pc "\n\n") (file_chunks.map (·.page_content))] else [])
    ++ (if base_chunks ≠ [] then
      [pc "📚 REFERENCE CONTEXT:\n"
        ++ joinSep (pc "\n\n") (base_chunks.map (·.page_content))] else [])
    ++ (if web_pages ≠ [] then
      [pc "🌐 WEB CONTEXT (live web data):\n"
        ++ joinSep (pc "\n\n") (web_pages.map fun p =>
            pc "[" ++ p.title ++ pc "]: " ++ p.content)] else [])
  let full_context := if contexts = [] then pc "No context available." else
    joinSep (pc "\n\n-----\n\n") contexts
  let r := build_context st (chatRagSynthPrompt full_context q)
  let answer ← env.chat_llm r.1
  let follow ← env.followup_gen answer q
  let sources :=
    (file_chunks.map fun d =>
      (⟨d.meta_source.getD (pc "📄 Uploaded File"), d.meta_file_path.getD []⟩ : SourceRef))
    ++ web_pages.map fun p => (⟨p.title, p.url⟩ : SourceRef)
  .ok { answer := answer
        links := convert_links web_results
        sources := sources
        follow := follow
        st := r.2 }

/-- The page-fetch loop of the chat web branch (src/app/api.py lines 368-382):
`fetch_clean` is unguarded, so a raised fetch error propagates. -/
def chatWebFetch (env : Env) : List SearchResult → Except Err (List Page)
  | [] => .ok []
  | r :: rs =>
    let url := r.url.getD []
    if url = [] then chatWebFetch env rs
    else do
      let text ← env.fetch_clean url
      let rest ← chatWebFetch env rs
      if text = [] then .ok rest
      else .ok (⟨r.title.getD (pc "Webpage"), url, text.take 2000⟩ :: rest)

/-- The web-mode branch of `chat` (src/app/api.py lines 365-404): unguarded
search and fetches, context from the fetched pages, full-history context for
the LLM. -/
def chat_web_branch (env : Env) (q : List Char) (st : ChatSt) : Except Err BranchOut := do
  let res ← env.search q 5
  let pages ← chatWebFetch env res
  let ctx := joinSep (pc "\n\n") (pages.map (·.content))
  let prompt :=
    pc "Use ONLY the following web content to answer. Cite sources using [1], [2], etc.\n\n"
      ++ ctx ++ pc "\n\nQuestion: " ++ q
  let r := build_context st prompt
  let answer ← env.chat_llm r.1
  let follow ← env.followup_gen answer q
  .ok { answer := answer
        links := pages.map fun p => ⟨p.title, p.url, p.content.take 200⟩
        sources := pages.map fun p => ⟨p.title, p.url⟩
        follow := follow
        st := r.2 }

/-- The fallback branch of `chat` (src/app/api.py lines 407-410). -/
def chat_fallback_branch (env : Env) (q : List Char) (st : ChatSt) : Except Err BranchOut := do
  let r := build_context st q
  let answer ← env.chat_llm r.1
  let follow ← env.followup_gen answer q
  .ok { answer := answer, follow := follow, st := r.2 }

/-- Dispatch on the routed mode (src/app/api.py lines 213-410). -/
def chat_branch (env : Env) (q ws mode : List Char) (st : ChatSt) : Except Err BranchOut :=
  if mode = pc "llm" then chat_llm_branch env q st
  else if mode = pc "image" then chat_image_branch env q st
  else if mode = pc "rag" then chat_rag_branch env q ws st
  else if mode = pc "web" then chat_web_branch env q st
  else chat_fallback_branch env q st

/-- The `ChatRequest` model (src/app/api.py lines 111-113). -/
structure ChatRequest where
  message : List Char
  workspace_id : List Char := pc "default"
deriving DecidableEq

/-- The `/api/chat` endpoint (src/app/api.py lines 181-437): append the user
message, handle the name special cases, route, run the mode branch, fetch
images, append the assistant reply, return the envelope. Returns the response
together with the final instrumented memory state. -/
def chat (env : Env) (req : ChatRequest) (st0 : ChatSt) :
    Except Err (ChatResponse × ChatSt) :=
  let q := pyStrip req.message
  let ws := req.workspace_id
  let st1 := memory_add st0 (pc "user") q
  match env.extract_name q with
  | some nm =>
    let st2 := { st1 with profile_name := some nm }
    let reply := pc "Nice to meet you, " ++ nm ++ pc "! I’ll remember your name."
    .ok ({ answer := reply, workspace_id := ws }, memory_add st2 (pc "assistant") reply)
  | none =>
    if pyLower q = pc "tell me my name" ∨ pyLower q = pc "what is my name" then
      let ans := match st1.profile_name with
        | some nm => pc "Your name is " ++ nm ++ pc " 😊"
        | none => pc "You haven’t told me your name yet."
      .ok ({ answer := ans, workspace_id := ws }, memory_add st1 (pc "assistant") ans)
    else do
      let mode ← RouterAgent.route q (env.classifier q)
      let default_tab := guess_default_tab q mode
      let out ← chat_branch env q ws mode st1
      let images := tavily_images_safe env q
      let stF := memory_add out.st (pc "assistant") out.answer
      .ok ({ answer := out.answer
             sources := out.sources
             links := out.links
             images := images
             followups := out.follow
             default_tab := default_tab
             workspace_id := ws }, stF)

/-! ## Concrete oracle environments for witnesses and counterexamples -/

/-- A benign oracle environment: every external call succeeds with a small
fixed value. -/
def env0 : Env where
  llm := fun _ => .ok (pc "General knowledge answer.")
  chat_llm := fun _ => .ok (pc "ok")
  followup_gen := fun _ _ => .ok []
  summarize := fun _ _ => .ok (pc "A summary.")
  search := fun _ _ => .ok []
  fetch_clean := fun _ => .ok []
  image_search := fun _ _ => .ok []
  classifier := fun _ => .ok (pc "llm")
  ws_retrieve := fun _ _ _ => .ok []
  ws_initialized := fun _ => false
  ws_files := fun _ => []
  vs_retrieve := fun _ _ => .ok []
  rerank := fun _ chunks _ => .ok chunks
  extract_name := fun _ => none

/-- An environment whose web search backend raises, while summarization
succeeds: exercises the search-exception branch of the Summarize input node. -/
def envSearchDown : Env :=
  { env0 with
    search := fun _ _ => .error "search backend down"
    summarize := fun _ _ => .ok (pc "A summary of cats.") }

/-- A loader/splitter environment for `add_files`: each file loads as one
document carrying its name as content, and splitting is the identity. -/
def fmenv0 : FMEnv where
  load := fun p => .ok [{ page_content := p.name }]
  split := fun docs => docs

/-- The chat request of the C9 witness. -/
def c9wReq : ChatRequest := { message := pc "hello there", workspace_id := pc "default" }

/-- The response envelope `chat env0 c9wReq` produces from an empty history. -/
def c9wResp : ChatResponse :=
  { answer := pc "ok", workspace_id := pc "default" }

/-- The final memory state `chat env0 c9wReq` produces from an empty history. -/
def c9wSt : ChatSt :=
  { history := [⟨pc "user", pc "hello there"⟩, ⟨pc "assistant", pc "ok"⟩]
    reads := [[⟨pc "user", pc "hello there"⟩]]
    profile_name := none }

/-! # Theorems

Helper lemmas first, then for each claim its theorem (and witness /
counterexample where required). -/

/-! ## Whitespace and substring lemmas for the router proofs -/

/-- Every string splits as leading whitespace, its `pyStrip`, and trailing
whitespace. -/
theorem pyStrip_decomp (l : List Char) :
    ∃ s1 s2, l = s1 ++ pyStrip l ++ s2 ∧
      (∀ c ∈ s1, pyIsSpace c = true) ∧ (∀ c ∈ s2, pyIsSpace c = true) := by
  refine ⟨l.takeWhile pyIsSpace,
    ((l.dropWhile pyIsSpace).reverse.takeWhile pyIsSpace).reverse, ?_, ?_, ?_⟩
  · conv_lhs => rw [← List.takeWhile_append_dropWhile (p := pyIsSpace) (l := l)]
    rw [List.append_assoc]
    congr 1
    unfold pyStrip
    conv_lhs =>
      rw [← (l.dropWhile pyIsSpace).reverse_reverse,
        ← List.takeWhile_append_dropWhile (p := pyIsSpace)
          (l := (l.dropWhile pyIsSpace).reverse),
        List.reverse_append]
  · intro c hc
    exact List.mem_takeWhile_imp hc
  · intro c hc
    rw [List.mem_reverse] at hc
    exact List.mem_takeWhile_imp hc

/-- A whitespace-free word that is a prefix of `x ++ c :: y` with `c`
whitespace is a prefix of `x`. -/
theorem nospace_prefix_append {w x y : List Char} {c : Char} (hc : pyIsSpace c = true)
    (hw : ∀ a ∈ w, pyIsSpace a = false) (h : w <+: x ++ c :: y) : w <+: x := by
  induction x generalizing w with
  | nil =>
    rcases w with _ | ⟨b, w'⟩
    · exact List.nil_prefix
    · rw [List.nil_append, List.cons_prefix_cons] at h
      have hb := hw b (by simp)
      rw [h.1, hc] at hb
      cases hb
  | cons a x ih =>
    rcases w with _ | ⟨b, w'⟩
    · exact List.nil_prefix
    · rw [List.cons_append, List.cons_prefix_cons] at h
      rw [List.cons_prefix_cons]
      exact ⟨h.1, ih (fun a ha => hw a (by simp [ha])) h.2⟩

/-- A nonempty whitespace-free infix of `s ++ t` with `s` all whitespace is an
infix of `t`. -/
theorem nospace_infix_dropLeft {w s t : List Char} (hw : ∀ a ∈ w, pyIsSpace a = false)
    (hne : w ≠ []) (hs : ∀ c ∈ s, pyIsSpace c = true) (h : w <:+: s ++ t) : w <:+: t := by
  induction s with
  | nil => simpa using h
  | cons c s ih =>
    rw [List.cons_append, List.infix_cons_iff] at h
    rcases h with hp | hi
    · rcases w with _ | ⟨b, w'⟩
      · exact absurd rfl hne
      · rw [List.cons_prefix_cons] at hp
        have hb := hw b (by simp)
        have hcsp := hs c (by simp)
        rw [hp.1, hcsp] at hb
        cases hb
    · exact ih (fun c' hc' => hs c' (by simp [hc'])) hi

/-- A nonempty whitespace-free infix of `t ++ s` with `s` all whitespace is an
infix of `t`. -/
theorem nospace_infix_dropRight {w t s : List Char} (hw : ∀ a ∈ w, pyIsSpace a = false)
    (hne : w ≠ []) (hs : ∀ c ∈ s, pyIsSpace c = true) (h : w <:+: t ++ s) : w <:+: t := by
  have h' : w.reverse <:+: (t ++ s).reverse := List.reverse_infix.mpr h
  rw [List.reverse_append] at h'
  have h2 := nospace_infix_dropLeft
    (fun a ha => hw a (List.mem_reverse.mp ha))
    (by simpa using hne)
    (fun c hc => hs c (List.mem_reverse.mp hc)) h'
  exact List.reverse_infix.mp h2

/-- A nonempty whitespace-free infix of `x ++ c :: y` with `c` whitespace is
an infix of `x` or of `y`. -/
theorem nospace_infix_split {w x y : List Char} {c : Char} (hw : ∀ a ∈ w, pyIsSpace a = false)
    (hne : w ≠ []) (hc : pyIsSpace c = true) (h : w <:+: x ++ c :: y) :
    w <:+: x ∨ w <:+: y := by
  induction x with
  | nil =>
    rw [List.nil_append, List.infix_cons_iff] at h
    rcases h with hp | hi
    · rcases w with _ | ⟨b, w'⟩
      · exact absurd rfl hne
      · rw [List.cons_prefix_cons] at hp
        have hb := hw b (by simp)
        rw [hp.1, hc] at hb
        cases hb
    · exact Or.inr hi
  | cons a x ih =>
    rw [List.cons_append, List.infix_cons_iff] at h
    rcases h with hp | hi
    · left
      have hpre : w <+: a :: x :=
        nospace_prefix_append hc hw (y := y) (by rw [List.cons_append]; exact hp)
      exact hpre.isInfix
    · rcases ih hi with h1 | h2
      · exact Or.inl (h1.trans (List.suffix_cons a x).isInfix)
      · exact Or.inr h2

/-- Every real-time keyword is nonempty and whitespace-free. -/
theorem realtime_words_nospace :
    ∀ w ∈ RouterAgent.realtime_words, w ≠ [] ∧ ∀ a ∈ w, pyIsSpace a = false := by decide

/-- No real-time keyword occurs inside any whitespace-free block of a greeting. -/
theorem realtime_words_not_in_greeting_blocks :
    ∀ w ∈ RouterAgent.realtime_words,
      ¬ w <:+: pc "hi" ∧ ¬ w <:+: pc "hello" ∧ ¬ w <:+: pc "hey" ∧
      ¬ w <:+: pc "yo" ∧ ¬ w <:+: pc "sup" ∧ ¬ w <:+: pc "there" := by decide

/-- A greeting query never satisfies the real-time rule. -/
theorem greeting_not_realtime (s : List Char)
    (hg : RouterAgent.is_greeting s = true) : RouterAgent.is_realtime s = false := by
  by_contra hne
  have hr : RouterAgent.is_realtime s = true := by
    cases h : RouterAgent.is_realtime s
    · exact absurd h hne
    · rfl
  rw [RouterAgent.is_realtime, RouterAgent.contains, containsAny, List.any_eq_true] at hr
  obtain ⟨w, hwmem, hsub⟩ := hr
  rw [isSub, decide_eq_true_iff] at hsub
  rw [RouterAgent.is_greeting, decide_eq_true_iff] at hg
  obtain ⟨s1, s2, hdec, hs1, hs2⟩ := pyStrip_decomp (pyLower s)
  obtain ⟨hne', hnsp⟩ := realtime_words_nospace w hwmem
  rw [hdec, List.append_assoc] at hsub
  have hsub1 := nospace_infix_dropLeft hnsp hne' hs1 hsub
  have hsub2 := nospace_infix_dropRight hnsp hne' hs2 hsub1
  have hblocks := realtime_words_not_in_greeting_blocks w hwmem
  simp only [RouterAgent.greetings, List.mem_cons, List.not_mem_nil, or_false] at hg
  rcases hg with h | h | h | h | h | h | h
  · exact hblocks.1 (h ▸ hsub2)
  · exact hblocks.2.1 (h ▸ hsub2)
  · exact hblocks.2.2.1 (h ▸ hsub2)
  · exact hblocks.2.2.2.1 (h ▸ hsub2)
  · exact hblocks.2.2.2.2.1 (h ▸ hsub2)
  · rw [h, show pc "hi there" = pc "hi" ++ ' ' :: pc "there" from rfl] at hsub2
    rcases nospace_infix_split hnsp hne' (by decide) hsub2 with h' | h'
    · exact hblocks.1 h'
    · exact hblocks.2.2.2.2.2 h'
  · rw [h, show pc "hello there" = pc "hello" ++ ' ' :: pc "there" from rfl] at hsub2
    rcases nospace_infix_split hnsp hne' (by decide) hsub2 with h' | h'
    · exact hblocks.2.1 h'
    · exact hblocks.2.2.2.2.2 h'

/-! ## Claim C2 (router failure policy) -/

/-- Claim C2, corrected. As stated the claim is false: `llm_decide` has no
`try/except`, so a raised classifier-backend error propagates out of
`route` (see `c2_counterexample`). What holds is the amended claim: whenever
the fallback classifier call itself returns (no exception), `route` never
raises, and any returned string other than the four allowed tokens makes the
fallback resolve to "llm". -/
theorem c2_route_total_on_reply (q s : List Char) :
    (∃ m, RouterAgent.route q (Except.ok s) = Except.ok m) ∧
    (pyLower (pyStrip s) ∉ RouterAgent.allowed_modes →
      RouterAgent.llm_decide (Except.ok s) = Except.ok (pc "llm")) := by
  constructor
  · rw [RouterAgent.route]
    repeat' split
    any_goals exact ⟨_, rfl⟩
    rw [RouterAgent.llm_decide]
    split
    · exact ⟨_, rfl⟩
    · exact ⟨_, rfl⟩
  · intro hnm
    rw [RouterAgent.llm_decide]
    simp only [hnm, if_false]

/-- Witness for C2: the amended theorem applied to a query that reaches the
fallback and a malformed classifier reply. -/
theorem c2_route_total_on_reply_witness :
    (pyLower (pyStrip (pc "banana")) ∉ RouterAgent.allowed_modes) ∧
    RouterAgent.llm_decide (Except.ok (pc "banana")) = Except.ok (pc "llm") :=
  ⟨by decide,
   (c2_route_total_on_reply (pc "tell me an original bedtime story") (pc "banana")).2
     (by decide)⟩

/-- Counterexample to C2 as stated: on a query that reaches the fallback
classifier, a raised backend error propagates out of `route` instead of
resolving to "llm". -/
theorem c2_counterexample :
    RouterAgent.route (pc "tell me an original bedtime story")
      (Except.error "network error") = Except.error "network error" := by rfl

/-! ## Claim C3 (real-time keywords route to web) -/

/-- Claim C3, corrected. As stated the claim is false: the image rule is
checked before the real-time rule, so a query containing both an image
keyword and a real-time keyword routes to "image" (see `c3_counterexample`).
Amended claim: every query containing a real-time keyword and no image
keyword routes to "web" — in particular a greeting never contains a
real-time keyword, and the real-time rule fires before the definition rule,
so a "what is"-style query with a real-time keyword still routes to "web". -/
theorem c3_realtime_routes_web (q : List Char) (resp : Except Err (List Char))
    (hrt : RouterAgent.is_realtime (pyStrip q) = true)
    (him : RouterAgent.is_image_query (pyStrip q) = false) :
    RouterAgent.route q resp = Except.ok (pc "web") := by
  have hg : RouterAgent.is_greeting (pyStrip q) = false := by
    cases h : RouterAgent.is_greeting (pyStrip q)
    · rfl
    · have h2 := greeting_not_realtime _ h
      rw [h2] at hrt
      cases hrt
  rw [RouterAgent.route]
  simp only [hg, him, hrt, Bool.false_eq_true, if_false, if_true]

/-- Witness for C3: a definition-style query with a real-time keyword and no
image keyword routes to "web". -/
theorem c3_realtime_routes_web_witness :
    RouterAgent.is_realtime (pyStrip (pc "what is the weather in tokyo")) = true ∧
    RouterAgent.is_image_query (pyStrip (pc "what is the weather in tokyo")) = false ∧
    RouterAgent.route (pc "what is the weather in tokyo") (Except.ok (pc "rag")) =
      Except.ok (pc "web") :=
  ⟨by decide, by decide,
   c3_realtime_routes_web (pc "what is the weather in tokyo") (Except.ok (pc "rag"))
     (by decide) (by decide)⟩

/-- Counterexample to C3 as stated: "latest pic" contains the real-time
keyword "latest" but routes to "image", because the image rule precedes the
real-time rule. -/
theorem c3_counterexample :
    RouterAgent.is_realtime (pyStrip (pc "latest pic")) = true ∧
    RouterAgent.route (pc "latest pic") (Except.ok (pc "web")) = Except.ok (pc "image") := by
  constructor
  · decide
  · rfl

/-! ## Claims C4 and C10 (citation attachment) -/

/-- Generic helper: a `filterMap` is unchanged by first filtering out the
elements it maps to `none`. -/
theorem filterMap_eq_filterMap_filter {α β : Type} (f : α → Option β) (p : α → Bool)
    (hf : ∀ a, p a = false → f a = none) (l : List α) :
    l.filterMap f = (l.filter p).filterMap f := by
  induction l with
  | nil => rfl
  | cons a l ih =>
    cases hp : p a
    · simp [List.filterMap_cons, List.filter_cons, hp, hf a hp, ih]
    · simp [List.filterMap_cons, List.filter_cons, hp, ih]

/-- The extracted index list depends only on the set of scanned citation
indices. -/
theorem extract_indices_eq_of_scan_mem_iff (a2 a : List Char)
    (h : ∀ n, n ∈ CitationTool.scan a2 ↔ n ∈ CitationTool.scan a) :
    CitationTool.extract_indices a2 = CitationTool.extract_indices a := by
  unfold CitationTool.extract_indices
  apply List.eq_of_perm_of_sorted _ (List.sorted_insertionSort _ _) (List.sorted_insertionSort _ _)
  have p1 : List.Perm (List.insertionSort (· ≤ ·) (CitationTool.scan a2).dedup)
      (CitationTool.scan a2).dedup := List.perm_insertionSort _ _
  have p2 : List.Perm (CitationTool.scan a2).dedup (CitationTool.scan a).dedup :=
    List.perm_of_nodup_nodup_toFinset_eq (List.nodup_dedup _) (List.nodup_dedup _)
      (by ext n; simp [List.mem_toFinset, List.mem_dedup, h n])
  have p3 : List.Perm (CitationTool.scan a).dedup
      (List.insertionSort (· ≤ ·) (CitationTool.scan a).dedup) :=
    (List.perm_insertionSort _ _).symm
  exact (p1.trans p2).trans p3

/-- With citation markers exactly `{1, 3}`, the extracted index list is `[1, 3]`. -/
theorem extract_indices_one_three (answer : List Char)
    (hscan : ∀ n, n ∈ CitationTool.scan answer ↔ (n = 1 ∨ n = 3)) :
    CitationTool.extract_indices answer = [1, 3] := by
  unfold CitationTool.extract_indices
  apply List.eq_of_perm_of_sorted _ (List.sorted_insertionSort _ _) (by decide)
  have p1 : List.Perm (List.insertionSort (· ≤ ·) (CitationTool.scan answer).dedup)
      (CitationTool.scan answer).dedup := List.perm_insertionSort _ _
  have p2 : List.Perm (CitationTool.scan answer).dedup [1, 3] :=
    List.perm_of_nodup_nodup_toFinset_eq (List.nodup_dedup _) (by decide)
      (by ext n; simp [List.mem_toFinset, List.mem_dedup, hscan n])
  exact p1.trans p2

/-- Claim C4 (confirmed): for an answer whose citation markers are exactly
`[1]` and `[3]` and a sources list with at least three entries,
`attach_sources` returns exactly `[sources[0], sources[2]]` in that order
(excluding `sources[1]`); moreover, for any answer and sources, every element
of the output is the source at some cited in-range index — a cited index
outside `1..len(sources)` contributes nothing. -/
theorem c4_attach_sources_one_three {α : Type} (answer : List Char) (sources : List α)
    (hscan : ∀ n, n ∈ CitationTool.scan answer ↔ (n = 1 ∨ n = 3))
    (h3 : 3 ≤ sources.length) :
    CitationTool.attach_sources answer sources =
      [sources.get ⟨0, by omega⟩, sources.get ⟨2, by omega⟩] ∧
    (∀ (a2 : List Char) (s2 : List α) (x : α), x ∈ CitationTool.attach_sources a2 s2 →
      ∃ i ∈ CitationTool.extract_indices a2, 1 ≤ i ∧ i ≤ s2.length ∧ s2[i - 1]? = some x) := by
  constructor
  · rw [CitationTool.attach_sources, extract_indices_one_three answer hscan]
    have h0 : 0 < sources.length := by omega
    have h2 : 2 < sources.length := by omega
    simp [List.filterMap_cons, List.getElem?_eq_getElem h0, List.getElem?_eq_getElem h2]
  · intro a2 s2 x hx
    rw [CitationTool.attach_sources] at hx
    obtain ⟨i, hi, hf⟩ := List.mem_filterMap.mp hx
    by_cases h1 : 1 ≤ i
    · rw [if_pos h1] at hf
      obtain ⟨hlt, _⟩ := List.getElem?_eq_some.mp hf
      exact ⟨i, hi, h1, by omega, hf⟩
    · rw [if_neg h1] at hf
      cases hf

/-- Witness for C4 at a concrete answer and sources list. -/
theorem c4_attach_sources_one_three_witness :
    CitationTool.attach_sources (pc "see [1] and [3].") [10, 20, 30] = [(10 : Nat), 30] := by
  have h := (c4_attach_sources_one_three (pc "see [1] and [3].") [10, 20, 30]
    (by
      intro n
      rw [show CitationTool.scan (pc "see [1] and [3].") = [1, 3] from rfl]
      simp)
    (by decide)).1
  simpa using h

/-- Claim C10 (confirmed): the attached sources are the values at a strictly
ascending list of in-range citation indices (so each cited source position
appears at most once, in ascending index order), and the output depends only
on the SET of citation indices scanned from the answer — marker order and
multiplicity are irrelevant. -/
theorem c10_attach_sources_sorted_set {α : Type} (answer : List Char) (sources : List α) :
    (∃ idxs : List Nat, idxs.Sorted (· < ·) ∧ (∀ i ∈ idxs, 1 ≤ i ∧ i ≤ sources.length) ∧
      CitationTool.attach_sources answer sources = idxs.filterMap fun i => sources[i - 1]?) ∧
    (∀ a2 : List Char,
      (∀ n, n ∈ CitationTool.scan a2 ↔ n ∈ CitationTool.scan answer) →
      CitationTool.attach_sources a2 sources = CitationTool.attach_sources answer sources) := by
  constructor
  · refine ⟨(CitationTool.extract_indices answer).filter
      (fun i => decide (1 ≤ i) && decide (i ≤ sources.length)), ?_, ?_, ?_⟩
    · have hsle : (CitationTool.extract_indices answer).Sorted (· ≤ ·) :=
        List.sorted_insertionSort _ _
      have hnd : (CitationTool.extract_indices answer).Nodup :=
        (List.perm_insertionSort _ _).symm.nodup (List.nodup_dedup _)
      exact (hsle.lt_of_le hnd).filter _
    · intro i hi
      have := List.of_mem_filter hi
      simpa using this
    · rw [CitationTool.attach_sources]
      rw [filterMap_eq_filterMap_filter _
        (fun i => decide (1 ≤ i) && decide (i ≤ sources.length))]
      · apply List.filterMap_congr
        intro i hi
        have hb := List.of_mem_filter hi
        simp only [Bool.and_eq_true, decide_eq_true_eq] at hb
        rw [if_pos hb.1]
      · intro i hpi
        by_cases h1 : 1 ≤ i
        · by_cases h2 : i ≤ sources.length
          · exact absurd hpi (by simp [h1, h2])
          · rw [if_pos h1, List.getElem?_eq_none (by omega)]
        · rw [if_neg h1]
  · intro a2 h
    rw [CitationTool.attach_sources, CitationTool.attach_sources,
      extract_indices_eq_of_scan_mem_iff a2 answer h]

/-- Witness for C10: an answer citing `[3]` before `[1]` and citing `[1]`
twice attaches the same sources as the plain answer `[1][3]` — namely
`sources[0]` then `sources[2]` exactly once each. -/
theorem c10_attach_sources_sorted_set_witness :
    CitationTool.attach_sources (pc "[3] before [1] and [1] again") [10, 20, 30] =
      CitationTool.attach_sources (pc "[1][3]") [10, 20, 30] ∧
    CitationTool.attach_sources (pc "[3] before [1] and [1] again") [10, 20, 30] =
      [(10 : Nat), 30] := by
  have h := (c10_attach_sources_sorted_set (pc "[1][3]") [(10 : Nat), 20, 30]).2
    (pc "[3] before [1] and [1] again")
    (by
      intro n
      rw [show CitationTool.scan (pc "[3] before [1] and [1] again") = [3, 1, 1] from rfl,
        show CitationTool.scan (pc "[1][3]") = [1, 3] from rfl]
      simp only [List.mem_cons, List.not_mem_nil, or_false]
      tauto)
  exact ⟨h, by rw [h]; rfl⟩

/-! ## Monadic helpers for the Except embedding -/

/-- Successful bind evaluation. -/
theorem bind_ok {α β : Type} (a : α) (f : α → Except Err β) :
    (Except.ok a : Except Err α) >>= f = f a := rfl

/-- Error propagation through bind. -/
theorem bind_err {α β : Type} (e : Err) (f : α → Except Err β) :
    (Except.error e : Except Err α) >>= f = Except.error e := rfl

/-- `pure` is `Except.ok`. -/
theorem pure_ok {α : Type} (a : α) : (pure a : Except Err α) = Except.ok a := rfl

/-- Inversion of a successful bind. -/
theorem bindEqOk {α β : Type} {m : Except Err α} {f : α → Except Err β} {b : β}
    (h : m >>= f = Except.ok b) : ∃ a, m = Except.ok a ∧ f a = Except.ok b := by
  cases m with
  | ok a => exact ⟨a, rfl, h⟩
  | error e => exact absurd h (by simp [Bind.bind, Except.bind])

/-! ## Claim C7 (Document-Only pipeline with uninitialized index) -/

/-- Claim C7 (confirmed): for every query, when the workspace's document index
is uninitialized the Document-Only pipeline succeeds and returns exactly the
fixed "no documents" answer and an empty sources list (no LLM call is made:
the answer node returns early on empty context). -/
theorem c7_rag_only_uninitialized (env : Env) (q ws : List Char)
    (h : env.ws_initialized ws = false) :
    rag_only_run env q ws = Except.ok
      { query := q, workspace_id := ws, file_chunks := [], context := [],
        answer := noDocsMsg, sources := [], followups := [] } := by
  rw [rag_only_run, rag_retrieve]
  simp only [h, Bool.not_false, Bool.true_or, if_true]
  rw [rag_context]
  simp only [if_true, reduceIte]
  rw [rag_answer]
  simp

/-- Witness for C7 at a concrete environment, query and workspace. -/
theorem c7_rag_only_uninitialized_witness :
    rag_only_run env0 (pc "what do my documents say") (pc "default") = Except.ok
      { query := pc "what do my documents say", workspace_id := pc "default",
        file_chunks := [], context := [], answer := noDocsMsg, sources := [],
        followups := [] } :=
  c7_rag_only_uninitialized env0 (pc "what do my documents say") (pc "default") rfl

/-! ## Claim C6 (Summarize pipeline, no content) -/

/-- When every search result has a falsy url or fetches to empty text, the
Summarize fetch loop succeeds with no parts and no links. -/
theorem sumFetchLoop_empty (env : Env) (rs : List SearchResult)
    (h : ∀ r ∈ rs, r.url.getD [] = [] ∨ env.fetch_clean (r.url.getD []) = Except.ok []) :
    sumFetchLoop env rs = Except.ok ([], []) := by
  induction rs with
  | nil => rfl
  | cons r rs ih =>
    have ih' := ih fun r' hr' => h r' (List.mem_cons_of_mem _ hr')
    rw [sumFetchLoop]
    rcases h r (List.mem_cons_self _ _) with h1 | h1
    · rw [if_pos h1]
      exact ih'
    · by_cases hu : r.url.getD [] = []
      · rw [if_pos hu]
        exact ih'
      · rw [if_neg hu, h1, bind_ok, ih', bind_ok]
        simp

/-- Claim C6, corrected. As stated the claim is false: when the web-search
call itself raises, the input node catches the exception and uses the QUERY
STRING as the content, so the pipeline summarizes the query instead of
returning the fixed message (see `c6_counterexample`). Amended claim: whenever
the gathered content is empty — the query is a URL whose fetch raises or
yields no text, or the query is not a URL and the search returns results all
of whose page fetches yield no text — the pipeline's answer is exactly the
fixed "could not find content" message. -/
theorem c6_summarize_empty_content (env : Env) (q : List Char) (st : SumState)
    (hrun : summarize_run env q = Except.ok st)
    (hcase :
      (pyStartsWith (pc "http") q = true ∧ ∀ c, env.fetch_clean q = Except.ok c → c = []) ∨
      (pyStartsWith (pc "http") q = false ∧ ∃ rs, env.search q 3 = Except.ok rs ∧
        ∀ r ∈ rs, r.url.getD [] = [] ∨ env.fetch_clean (r.url.getD []) = Except.ok [])) :
    st.answer = noContentMsg := by
  have hc : (summarize_input env { query := q }).content = [] := by
    rw [summarize_input]
    rcases hcase with ⟨hurl, hfe⟩ | ⟨hurl, rs, hs, hfetch⟩
    · rw [if_pos hurl]
      cases hf : env.fetch_clean q with
      | ok c => simpa using hfe c hf
      | error e => simp
    · rw [if_neg (by simp [hurl]), hs, bind_ok, sumFetchLoop_empty env rs hfetch]
      rfl
  rw [summarize_run] at hrun
  rw [summarize_process, hc] at hrun
  simp only [ne_eq, not_true_eq_false, reduceIte, pure_ok, bind_ok] at hrun
  obtain ⟨f, hf, hok⟩ := bindEqOk hrun
  cases hok
  rfl

/-- Witness for C6: a non-URL query whose search succeeds with no results
yields the fixed message. -/
theorem c6_summarize_empty_content_witness :
    summarize_run env0 (pc "history of chess") =
      Except.ok { query := pc "history of chess", is_url := false, content := [],
                  links := [], sources := [], answer := noContentMsg, followups := [] } ∧
    (summarize_run env0 (pc "history of chess")).map SumState.answer =
      Except.ok noContentMsg := by
  have h1 : summarize_run env0 (pc "history of chess") =
      Except.ok { query := pc "history of chess", is_url := false, content := [],
                  links := [], sources := [], answer := noContentMsg, followups := [] } := rfl
  have h2 := c6_summarize_empty_content env0 (pc "history of chess") _ h1
    (Or.inr ⟨rfl, [], rfl, by simp⟩)
  exact ⟨h1, by rw [h1]; exact congrArg Except.ok h2⟩

/-- Counterexample to C6 as stated: the search backend raises, so no content
was obtainable from the web, yet the pipeline answers with a summary of the
query string rather than the fixed "could not find content" message. -/
theorem c6_counterexample :
    summarize_run envSearchDown (pc "cats") =
      Except.ok { query := pc "cats", is_url := false, content := pc "cats",
                  links := [], sources := [], answer := pc "A summary of cats.",
                  followups := [] } ∧
    pc "A summary of cats." ≠ noContentMsg := by
  exact ⟨rfl, by decide⟩

/-! ## Claim C8 (Agentic pipeline with all planner gates false) -/

/-- Claim C8 (confirmed): on a query for which all four planner gates are
false, every sub-agent skips (no retrieval, search or image call is made),
the synthesizer falls back to the general-knowledge context, and whenever the
pipeline completes, the final sources list is empty and the answer is the
LLM's general-knowledge generation — non-empty provided the LLM backend
never returns an empty string. -/
theorem c8_agentic_all_gates_false (env : Env) (q ws : List Char) (st : AgenticState)
    (hf : agentic_use_file (pyLower q) = false)
    (hw : agentic_use_web (pyLower q) = false)
    (hi : agentic_use_images (pyLower q) = false)
    (hk : agentic_use_knowledge (pyLower q) = false)
    (hllm : ∀ p s, env.llm p = Except.ok s → s ≠ [])
    (hrun : agentic_run env q ws = Except.ok st) :
    st.sources = [] ∧ st.combined_context = noSpecificContextMsg ∧ st.answer ≠ [] := by
  rw [agentic_run, agentic_planner] at hrun
  simp only [hf, hw, hi, hk] at hrun
  rw [agentic_file] at hrun
  simp only [Bool.not_false, if_true, reduceIte] at hrun
  rw [agentic_web] at hrun
  simp only [Bool.not_false, if_true, reduceIte] at hrun
  rw [agentic_knowledge] at hrun
  simp only [Bool.not_false, if_true, reduceIte] at hrun
  rw [agentic_image] at hrun
  simp only [Bool.not_false, if_true, reduceIte] at hrun
  rw [agentic_synthesize] at hrun
  simp only [ne_eq, not_true_eq_false, reduceIte, List.nil_append, joinSep] at hrun
  obtain ⟨ans, hans, h2⟩ := bindEqOk hrun
  obtain ⟨fw, hfw, h3⟩ := bindEqOk h2
  cases h3
  exact ⟨rfl, rfl, hllm _ _ hans⟩

/-- Witness for C8: a six-word query hitting no planner keyword. -/
theorem c8_agentic_all_gates_false_witness :
    (({ query := pc "please craft a small gentle poem", workspace_id := pc "default",
        combined_context := noSpecificContextMsg,
        answer := pc "General knowledge answer." } : AgenticState).sources = []) ∧
    (({ query := pc "please craft a small gentle poem", workspace_id := pc "default",
        combined_context := noSpecificContextMsg,
        answer := pc "General knowledge answer." } : AgenticState).combined_context
      = noSpecificContextMsg) ∧
    (({ query := pc "please craft a small gentle poem", workspace_id := pc "default",
        combined_context := noSpecificContextMsg,
        answer := pc "General knowledge answer." } : AgenticState).answer ≠ []) :=
  c8_agentic_all_gates_false env0 (pc "please craft a small gentle poem") (pc "default") _
    (by decide) (by decide) (by decide) (by decide)
    (by intro p s h; cases h; decide)
    rfl

/-! ## Claim C1 (mode endpoints and pipeline exceptions) -/

/-- Claim C1, corrected. As stated the claim is false: only the
`deep_research` endpoint wraps its pipeline call in `try/except`; the
`web_search_mode` endpoint (like the rag/agentic/analyze endpoints) calls
`web_graph.run(q)` unguarded, so a raised pipeline exception propagates to
its caller (see `c1_counterexample`). Amended claim: when the deep-research
pipeline raises, the `deep_research` endpoint catches it, substitutes the
generic failure answer with empty sources, and — provided the post-pipeline
follow-up generation succeeds — still returns the complete well-formed
response envelope (answer, sources, links, images, followups, default_tab,
workspace_id). -/
theorem c1_deep_research_catches (env : Env) (e : Err) (q ws : List Char)
    (fw : List (List Char)) (hfw : env.followup_gen deepFailMsg q = Except.ok fw) :
    deep_research env (Except.error e) q ws = Except.ok
      { answer := deepFailMsg, sources := [], links := [],
        images := tavily_images_safe env q, followups := fw,
        default_tab := pc "answer", workspace_id := ws } := by
  rw [deep_research]
  simp only [pure_ok, bind_ok, hfw]

/-- Witness for C1: the amended theorem at a concrete environment and a
concrete raised pipeline error. -/
theorem c1_deep_research_catches_witness :
    deep_research env0 (Except.error "stage blew up") (pc "quantum computing") (pc "default")
      = Except.ok
        { answer := deepFailMsg, sources := [], links := [],
          images := tavily_images_safe env0 (pc "quantum computing"), followups := [],
          default_tab := pc "answer", workspace_id := pc "default" } :=
  c1_deep_research_catches env0 "stage blew up" (pc "quantum computing") (pc "default") [] rfl

/-- Counterexample to C1 as stated: a pipeline exception raised inside a
Web-Search pipeline stage propagates out of the `web_search_mode` endpoint
to its caller instead of being caught. -/
theorem c1_counterexample :
    web_search_mode env0 (Except.error "pipeline stage failure") (pc "latest news")
      (pc "default") = Except.error "pipeline stage failure" := rfl

/-! ## Claim C5 (upload/retrieve round-trip) -/

/-- Claim C5 is a code bug: the metadata loop of `add_files` runs after the
file loop and reads the leaked loop variable `p`, so in a multi-file upload
EVERY document of the batch gets `metadata["source"] = p.name` of the LAST
file. This theorem evaluates the code at the failing input: after uploading
two files `fa, fb` (both loading successfully, `fa` yielding at least one
document) in one call into a fresh workspace, no chunk in the workspace store
carries `fa`'s name as its source — so no retrieval result (a subset of the
store) can contain a chunk whose source equals `fa.name`, and the round-trip
property of the claim is violated for `fa`. The splitter hypothesis states
only that `DocumentProcessor.split` preserves each chunk's `source` metadata
from its originating document. -/
theorem c5_add_files_tags_all_docs_with_last_name (env : FMEnv) (fa fb : UploadPath)
    (da db : List Chunk)
    (hla : env.load fa = Except.ok da) (hlb : env.load fb = Except.ok db)
    (hda : da ≠ [])
    (hsplit : ∀ ds c, c ∈ env.split ds → ∃ d ∈ ds, c.meta_source = d.meta_source)
    (hnames : fa.name ≠ fb.name) :
    ∀ c ∈ (add_files env {} [fa, fb]).store, c.meta_source ≠ some fa.name := by
  intro c hc hceq
  rw [add_files] at hc
  rw [show addFilesLoop env [fa, fb] = (da ++ (db ++ []), [fa.name, fb.name]) by
    rw [addFilesLoop, hla, addFilesLoop, hlb, addFilesLoop]] at hc
  rw [if_neg (by simp [hda])] at hc
  rw [show [fa, fb].getLast? = some fb from rfl] at hc
  simp only [show ({} : WorkspaceSt).initialized = false from rfl, reduceIte] at hc
  obtain ⟨d, hdmem, heq⟩ := hsplit _ _ hc
  rw [List.mem_map] at hdmem
  obtain ⟨d0, _, rfl⟩ := hdmem
  rw [heq] at hceq
  exact hnames (by injection hceq with h; exact h.symm)

/-- Witness for C5: with the identity splitter and one document per file, the
first uploaded file's document ends up in the store tagged with the SECOND
file's name. -/
theorem c5_add_files_tags_all_docs_with_last_name_witness :
    ({ page_content := pc "a.txt", meta_source := some (pc "b.txt"),
       meta_file_path := some (pc "ws/b.txt") } : Chunk) ∈
      (add_files fmenv0 {} [⟨pc "ws/a.txt", pc "a.txt"⟩, ⟨pc "ws/b.txt", pc "b.txt"⟩]).store ∧
    ({ page_content := pc "a.txt", meta_source := some (pc "b.txt"),
       meta_file_path := some (pc "ws/b.txt") } : Chunk).meta_source ≠ some (pc "a.txt") := by
  constructor
  · decide
  · exact c5_add_files_tags_all_docs_with_last_name fmenv0
      ⟨pc "ws/a.txt", pc "a.txt"⟩ ⟨pc "ws/b.txt", pc "b.txt"⟩
      [{ page_content := pc "a.txt" }] [{ page_content := pc "b.txt" }]
      rfl rfl (by decide) (fun ds c h => ⟨c, h, rfl⟩) (by decide)
      _ (by decide)

/-! ## Claim C9 (chat history ordering) -/

/-- The llm branch leaves history unchanged and performs exactly one history
read, of the current history. -/
theorem chat_llm_branch_state (env : Env) (q : List Char) (st : ChatSt) (out : BranchOut)
    (h : chat_llm_branch env q st = Except.ok out) :
    out.st.history = st.history ∧ out.st.reads = st.reads ++ [st.history] := by
  rw [chat_llm_branch] at h
  obtain ⟨ans, hans, h2⟩ := bindEqOk h
  obtain ⟨fol, hfol, h3⟩ := bindEqOk h2
  cases h3
  exact ⟨rfl, rfl⟩

/-- The image branch leaves history unchanged and never reads it. -/
theorem chat_image_branch_state (env : Env) (q : List Char) (st : ChatSt) (out : BranchOut)
    (h : chat_image_branch env q st = Except.ok out) :
    out.st.history = st.history ∧ out.st.reads = st.reads := by
  rw [chat_image_branch] at h
  cases hs : env.search q 3 with
  | ok res =>
    rw [hs] at h
    cases h
    exact ⟨rfl, rfl⟩
  | error e =>
    rw [hs] at h
    cases h
    exact ⟨rfl, rfl⟩

/-- The rag branch leaves history unchanged and performs exactly one history
read, of the current history. -/
theorem chat_rag_branch_state (env : Env) (q ws : List Char) (st : ChatSt) (out : BranchOut)
    (h : chat_rag_branch env q ws st = Except.ok out) :
    out.st.history = st.history ∧ out.st.reads = st.reads ++ [st.history] := by
  rw [chat_rag_branch] at h
  split at h <;>
  · obtain ⟨fc, hfc, h2⟩ := bindEqOk h
    obtain ⟨b0, hb0, h3⟩ := bindEqOk h2
    obtain ⟨bc, hbc, h4⟩ := bindEqOk h3
    obtain ⟨ans, hans, h5⟩ := bindEqOk h4
    obtain ⟨fol, hfol, h6⟩ := bindEqOk h5
    cases h6
    exact ⟨rfl, rfl⟩

/-- The web branch leaves history unchanged and performs exactly one history
read, of the current history. -/
theorem chat_web_branch_state (env : Env) (q : List Char) (st : ChatSt) (out : BranchOut)
    (h : chat_web_branch env q st = Except.ok out) :
    out.st.history = st.history ∧ out.st.reads = st.reads ++ [st.history] := by
  rw [chat_web_branch] at h
  obtain ⟨res, hres, h2⟩ := bindEqOk h
  obtain ⟨pages, hpages, h3⟩ := bindEqOk h2
  obtain ⟨ans, hans, h4⟩ := bindEqOk h3
  obtain ⟨fol, hfol, h5⟩ := bindEqOk h4
  cases h5
  exact ⟨rfl, rfl⟩

/-- The fallback branch leaves history unchanged and performs exactly one
history read, of the current history. -/
theorem chat_fallback_branch_state (env : Env) (q : List Char) (st : ChatSt) (out : BranchOut)
    (h : chat_fallback_branch env q st = Except.ok out) :
    out.st.history = st.history ∧ out.st.reads = st.reads ++ [st.history] := by
  rw [chat_fallback_branch] at h
  obtain ⟨ans, hans, h2⟩ := bindEqOk h
  obtain ⟨fol, hfol, h3⟩ := bindEqOk h2
  cases h3
  exact ⟨rfl, rfl⟩

/-- Every chat branch leaves the history unchanged, and each of its history
reads returns the history as it was when the branch started. -/
theorem chat_branch_state (env : Env) (q ws mode : List Char) (st : ChatSt) (out : BranchOut)
    (h : chat_branch env q ws mode st = Except.ok out) :
    out.st.history = st.history ∧
    (out.st.reads = st.reads ∨ out.st.reads = st.reads ++ [st.history]) := by
  rw [chat_branch] at h
  split at h
  · exact (chat_llm_branch_state env q st out h).imp id Or.inr
  · split at h
    · exact (chat_image_branch_state env q st out h).imp id Or.inl
    · split at h
      · exact (chat_rag_branch_state env q ws st out h).imp id Or.inr
      · split at h
        · exact (chat_web_branch_state env q st out h).imp id Or.inr
        · exact (chat_fallback_branch_state env q st out h).imp id Or.inr

/-- Claim C9 (confirmed): on every chat request that completes, the user
message is appended to the workspace history first, every history read made
while serving the request (the pipeline's context-building) sees exactly the
prior history plus that user message — not the reply — and the assistant
reply is appended only afterwards, as the final history entry. -/
theorem c9_chat_history_order (env : Env) (req : ChatRequest) (h0 : List Msg)
    (nm : Option (List Char)) (resp : ChatResponse) (stF : ChatSt)
    (h : chat env req { history := h0, reads := [], profile_name := nm } =
      Except.ok (resp, stF)) :
    stF.history =
      h0 ++ [⟨pc "user", pyStrip req.message⟩, ⟨pc "assistant", resp.answer⟩] ∧
    ∀ r ∈ stF.reads, r = h0 ++ [⟨pc "user", pyStrip req.message⟩] := by
  rw [chat] at h
  cases hen : env.extract_name (pyStrip req.message) with
  | some nm2 =>
    rw [hen] at h
    cases h
    refine ⟨by simp [memory_add], ?_⟩
    intro r hr
    simp [memory_add] at hr
  | none =>
    rw [hen] at h
    by_cases hname : pyLower (pyStrip req.message) = pc "tell me my name" ∨
        pyLower (pyStrip req.message) = pc "what is my name"
    · rw [if_pos hname] at h
      cases h
      refine ⟨by simp [memory_add], ?_⟩
      intro r hr
      simp [memory_add] at hr
    · rw [if_neg hname] at h
      obtain ⟨mode, hmode, h2⟩ := bindEqOk h
      obtain ⟨out, hout, h3⟩ := bindEqOk h2
      cases h3
      have hbr := chat_branch_state env (pyStrip req.message) req.workspace_id mode _ out hout
      constructor
      · show (memory_add out.st (pc "assistant") out.answer).history = _
        rw [memory_add]
        rw [hbr.1]
        simp [memory_add]
      · intro r hr
        have hreads : (memory_add out.st (pc "assistant") out.answer).reads = out.st.reads := rfl
        rw [hreads] at hr
        rcases hbr.2 with hre | hre
        · rw [hre] at hr
          simp [memory_add] at hr
        · rw [hre] at hr
          simp only [memory_add, List.nil_append] at hr
          simp at hr
          rw [hr]

/-- Witness for C9: a concrete chat request against the benign environment,
with the single history read instantiated. -/
theorem c9_chat_history_order_witness :
    c9wSt.history =
      [] ++ [⟨pc "user", pyStrip c9wReq.message⟩, ⟨pc "assistant", c9wResp.answer⟩] ∧
    c9wSt.reads.head? = some ([] ++ [⟨pc "user", pyStrip c9wReq.message⟩]) := by
  have H := c9_chat_history_order env0 c9wReq [] none c9wResp c9wSt rfl
  refine ⟨H.1, ?_⟩
  have h2 := H.2 [⟨pc "user", pc "hello there"⟩] (by decide)
  rw [show c9wSt.reads.head? = some [(⟨pc "user", pc "hello there"⟩ : Msg)] from rfl]
  exact congrArg some h2
